import Mathlib

/-!
Verification development for the nextjs-lunarcrush-altrank repository.

Shallow embedding of the data-acquisition-and-normalization pipeline:
  * `getSentimentData` (app/services/lunarcrush.js): query building, the
    fetch/try/catch structure, and the mock-data fallback branch;
  * the `processedData` normalization map and the surrounding UI state
    updates of `fetchCryptoData` (app/page.js);
  * the `GET` handler of the `/api/sentiment` proxy route;
  * the canonical `mockData` sample dataset (app/data/mockData.js).

Numeric JSON values are modelled as `ℚ` (the data contains no NaN, so JS
number truthiness coincides with being nonzero); a field that may be
absent or null is an `Option`.  Fallible JS computations are embedded as
`Except String` values, with `jsTryCatch` playing the role of
`try { … } catch { … }`.
-/

namespace LunarCrush

/-- JS truthiness of a possibly-absent number: `undefined`/`null` and `0`
are falsy (no NaN occurs in this data). -/
def jsTruthyNum (x : Option ℚ) : Bool :=
  match x with
  | some v => v != 0
  | none => false

/-- The JS expression `x || d` for a possibly-absent number `x`:
the value of `x` when truthy, otherwise `d`. -/
def jsOrNum (x : Option ℚ) (d : ℚ) : ℚ :=
  match x with
  | some v => if v ≠ 0 then v else d
  | none => d

/-- JS truthiness of a possibly-absent (`null`/`undefined` = `none`)
string: absent and `""` are falsy. -/
def jsTruthyStr (x : Option String) : Bool :=
  match x with
  | some s => s != ""
  | none => false

/-- JS `Array.prototype.slice(0, fin)`: a negative `fin` counts from the
end of the array; the result is a fresh array. -/
def jsSlice0 {α : Type} (l : List α) (fin : Int) : List α :=
  let e : Int := if fin < 0 then (l.length : Int) + fin else fin
  l.take e.toNat

/-- JS `String.prototype.includes(pat)`: substring containment. -/
def jsIncludes (s pat : String) : Bool :=
  (List.range (s.length + 1)).any (fun i => pat.data.isPrefixOf (s.data.drop i))

/-- JS `try { body } catch (e) { handler(e) }` where the handler does not
itself throw: the whole expression is total. -/
def jsTryCatch {α : Type} (body : Except String α) (handler : String → α) : α :=
  match body with
  | .ok v => v
  | .error e => handler e

/-!  Raw and normalized records.

`RawCoin` carries the fields of interest named by the pipeline
(`id`, `symbol`, `name`, `price`, `volume_24h`, `market_cap`, `sentiment`,
`galaxy_score`, `percent_change_24h`, `percent_change_7d`,
`market_cap_rank`, `alt_rank`) plus the `rank` field the sample dataset
ships with; every one of them may be absent or null in raw form.  Other
upstream fields are carried through the JS object spread untouched and are
never read by any of the code under verification, so they are omitted. -/

structure RawCoin where
  id : Option ℚ
  symbol : Option String
  name : Option String
  price : Option ℚ
  volume_24h : Option ℚ
  market_cap : Option ℚ
  sentiment : Option ℚ
  galaxy_score : Option ℚ
  percent_change_24h : Option ℚ
  percent_change_7d : Option ℚ
  market_cap_rank : Option ℚ
  alt_rank : Option ℚ
  rank : Option ℚ
deriving DecidableEq, Repr

/-- A raw record with every field absent, used to build test records. -/
def RawCoin.empty : RawCoin :=
  { id := none, symbol := none, name := none, price := none,
    volume_24h := none, market_cap := none, sentiment := none,
    galaxy_score := none, percent_change_24h := none,
    percent_change_7d := none, market_cap_rank := none, alt_rank := none,
    rank := none }

/-- The record produced by the `processedData` map of `fetchCryptoData`
(page.js): the raw record with the display fields forced to numbers and a
computed `rank`. -/
structure ProcessedCoin where
  id : Option ℚ
  symbol : Option String
  name : Option String
  rank : ℚ
  sentiment : ℚ
  galaxy_score : ℚ
  percent_change_24h : ℚ
  percent_change_7d : ℚ
  volume_24h : ℚ
  market_cap : ℚ
  price : ℚ
deriving DecidableEq, Repr

/-- One step of the `processedData` map in `fetchCryptoData` (page.js):

```js
{ ...coin,
  rank: coin.market_cap_rank || coin.alt_rank || index + 1,
  sentiment: coin.sentiment ?? 0,
  galaxy_score: coin.galaxy_score ?? 0,
  percent_change_24h: coin.percent_change_24h ?? 0,
  percent_change_7d: coin.percent_change_7d ?? 0,
  volume_24h: coin.volume_24h ?? 0,
  market_cap: coin.market_cap ?? 0,
  price: coin.price ?? 0 }
```

`??` is `Option.getD`; `||` is `jsOrNum`. -/
def processCoin (coin : RawCoin) (index : ℕ) : ProcessedCoin :=
  { id := coin.id
    symbol := coin.symbol
    name := coin.name
    rank := jsOrNum coin.market_cap_rank (jsOrNum coin.alt_rank ((index : ℚ) + 1))
    sentiment := coin.sentiment.getD 0
    galaxy_score := coin.galaxy_score.getD 0
    percent_change_24h := coin.percent_change_24h.getD 0
    percent_change_7d := coin.percent_change_7d.getD 0
    volume_24h := coin.volume_24h.getD 0
    market_cap := coin.market_cap.getD 0
    price := coin.price.getD 0 }

/-- `result.data.map((coin, index) => …)` with the running index made
explicit. -/
def processListFrom : ℕ → List RawCoin → List ProcessedCoin
  | _, [] => []
  | i, c :: cs => processCoin c i :: processListFrom (i + 1) cs

/-- The whole `processedData` map: indices start at 0. -/
def processList (l : List RawCoin) : List ProcessedCoin :=
  processListFrom 0 l

theorem processListFrom_length (k : ℕ) (l : List RawCoin) :
    (processListFrom k l).length = l.length := by
  induction l generalizing k with
  | nil => rfl
  | cons c cs ih => simp [processListFrom, ih]

theorem processList_length (l : List RawCoin) :
    (processList l).length = l.length := processListFrom_length 0 l

theorem processListFrom_get (k : ℕ) (l : List RawCoin) (i : ℕ)
    (h : i < l.length) :
    (processListFrom k l).get ⟨i, by rw [processListFrom_length]; exact h⟩ =
      processCoin (l.get ⟨i, h⟩) (k + i) := by
  induction l generalizing k i with
  | nil => exact absurd h (by simp)
  | cons c cs ih =>
    cases i with
    | zero => simp [processListFrom]
    | succ j =>
      have hj : j < cs.length := Nat.lt_of_succ_lt_succ h
      have := ih (k + 1) j hj
      simpa [processListFrom, List.get, Nat.add_assoc, Nat.add_comm 1 j] using this

theorem processList_get (l : List RawCoin) (i : ℕ) (h : i < l.length) :
    (processList l).get ⟨i, by rw [processList_length]; exact h⟩ =
      processCoin (l.get ⟨i, h⟩) i := by
  simpa [processList] using processListFrom_get 0 l i h

/-!  The sample dataset (app/data/mockData.js), transcribed field by field
for every field of `RawCoin`. -/

/-- Shape of `mockData`: a `config.generated` timestamp plus the record
array. -/
structure MockData where
  generated : ℕ
  data : List RawCoin
deriving DecidableEq, Repr

/-- Record 1 of `mockData.data`: Metaverse ETP. -/
def mockETP : RawCoin :=
  { id := some 97, symbol := some "ETP", name := some "Metaverse ETP",
    price := some 0.0052705359118452475, volume_24h := some 56189.41,
    market_cap := some 376842, sentiment := some 100,
    galaxy_score := some 47.5, percent_change_24h := some 0.0649104500000177,
    percent_change_7d := some 0.49231392, market_cap_rank := some 3251,
    alt_rank := some 3857, rank := some 1 }

/-- Record 2 of `mockData.data`: XMAX. -/
def mockXMX : RawCoin :=
  { id := some 98, symbol := some "XMX", name := some "XMAX",
    price := some 0.000006302243993381724, volume_24h := some 52556.93,
    market_cap := some 156649.56, sentiment := some 100,
    galaxy_score := some 30.5, percent_change_24h := some (-0.02844175),
    percent_change_7d := some (-0.0242053), market_cap_rank := some 3720,
    alt_rank := some 3231, rank := some 2 }

/-- Record 3 of `mockData.data`: Metadium. -/
def mockMETA : RawCoin :=
  { id := some 184, symbol := some "META", name := some "Metadium",
    price := some 0.02227433475925753, volume_24h := some 199107.09,
    market_cap := some 38158357.11, sentiment := some 100,
    galaxy_score := some 16.6, percent_change_24h := some (-0.476776598631),
    percent_change_7d := some (-1.828764431219), market_cap_rank := some 809,
    alt_rank := some 2678, rank := some 3 }

/-- Record 4 of `mockData.data`: Bitcoin. -/
def mockBTC : RawCoin :=
  { id := some 1, symbol := some "BTC", name := some "Bitcoin",
    price := some 106859.23, volume_24h := some 25803489654,
    market_cap := some 2111578923418, sentiment := some 65.7,
    galaxy_score := some 75.6, percent_change_24h := some 1.47476598631,
    percent_change_7d := some 5.828764431219, market_cap_rank := some 1,
    alt_rank := some 1, rank := some 4 }

/-- Record 5 of `mockData.data`: Ethereum. -/
def mockETH : RawCoin :=
  { id := some 2, symbol := some "ETH", name := some "Ethereum",
    price := some 3582.76, volume_24h := some 19452748903,
    market_cap := some 429923728547, sentiment := some 62.4,
    galaxy_score := some 72.3, percent_change_24h := some 1.23565,
    percent_change_7d := some 3.74651, market_cap_rank := some 2,
    alt_rank := some 2, rank := some 5 }

/-- The canonical sample dataset `mockData` (app/data/mockData.js), in its
authored order. -/
def mockData : MockData :=
  { generated := 1749002977
    data := [mockETP, mockXMX, mockMETA, mockBTC, mockETH] }

/-!  `getSentimentData` (app/services/lunarcrush.js). -/

/-- The query parameters object passed to `getSentimentData`.  `desc` is
`none` when the caller leaves it `undefined`; the callers pass either a
boolean or the numbers `1`/`0`, both captured as `some true`/`some false`
(same definedness and truthiness).  `limit` is `none` when `undefined`. -/
structure Params where
  desc : Option Bool
  limit : Option Int
deriving DecidableEq, Repr

/-- Successfully parsed JSON body of a `/api/sentiment` response: the
upstream `{config, data}` shape, either part possibly missing (`body.data`
is absent for a body such as `{}`). -/
structure SentimentBody where
  generated : Option ℕ
  data : Option (List RawCoin)
deriving DecidableEq, Repr

/-- Outcome of the `fetch` call as seen by `getSentimentData`:
the promise rejects (network failure), or a response arrives with an
`ok` flag, a status code, and a body that `response.json()` either parses
(`some`) or fails to parse (`none`). -/
inductive FetchOutcome where
  | networkError
  | response (ok : Bool) (status : ℕ) (body : Option SentimentBody)
deriving DecidableEq, Repr

/-- The value `getSentimentData` resolves with: the parsed body on the
live path, or the mock fallback object.  `usedMockData` is absent
(falsy, modelled `false`) on the live path. -/
structure SentimentResult where
  generated : Option ℕ
  data : Option (List RawCoin)
  usedMockData : Bool
deriving DecidableEq, Repr

/-- The query-string pairs built by `getSentimentData` in appended order:
`desc` is appended as `'1'`/`'0'` when defined, then `limit` as
`params.limit.toString()` when defined — the value itself unmodified. -/
def buildQueryParams (p : Params) : List (String × String) :=
  (match p.desc with
   | some d => [("desc", if d then "1" else "0")]
   | none => []) ++
  (match p.limit with
   | some n => [("limit", toString n)]
   | none => [])

/-- The request URL `/api/sentiment` with the query string appended when
nonempty. -/
def requestUrl (p : Params) : String :=
  let qs := String.intercalate "&"
    ((buildQueryParams p).map (fun kv => kv.1 ++ "=" ++ kv.2))
  "/api/sentiment" ++ (if qs = "" then "" else "?" ++ qs)

/-- The `try` block of `getSentimentData`: a rejected fetch propagates; a
non-ok response throws `` `API Error: ${response.status}` ``; a body that
fails to parse throws; otherwise the parsed JSON is returned. -/
def getSentimentDataTry (o : FetchOutcome) : Except String SentimentBody :=
  match o with
  | .networkError => .error "TypeError: Failed to fetch"
  | .response ok status body =>
    if ok = false then .error ("API Error: " ++ toString status)
    else
      match body with
      | some b => .ok b
      | none => .error "SyntaxError: Unexpected end of JSON input"

/-- The base sequence of the fallback branch: `[...result.data].reverse()`
when `params.desc` is truthy, else the dataset's canonical order. -/
def fallbackBase (p : Params) : List RawCoin :=
  if p.desc = some true then mockData.data.reverse else mockData.data

/-- The record sequence of the fallback branch: the (possibly reversed)
sample dataset, truncated by `result.data.slice(0, params.limit)` only
when `params.limit` is truthy (defined and nonzero). -/
def fallbackData (p : Params) : List RawCoin :=
  match p.limit with
  | some n => if n ≠ 0 then jsSlice0 (fallbackBase p) n else fallbackBase p
  | none => fallbackBase p

/-- The object returned by the `catch` branch of `getSentimentData`:
`{ ...mockData, usedMockData: true }` with the reversal/truncation
applied to its `data`. -/
def fallbackResult (p : Params) : SentimentResult :=
  { generated := some mockData.generated
    data := some (fallbackData p)
    usedMockData := true }

/-- `getSentimentData` (app/services/lunarcrush.js): the try block feeds
the live body through unchanged; every caught error yields the mock
fallback.  The return type `SentimentResult` (not `Except`) reflects that
the function never rejects. -/
def getSentimentData (p : Params) (o : FetchOutcome) : SentimentResult :=
  jsTryCatch
    ((getSentimentDataTry o).map
      (fun b => { generated := b.generated, data := b.data, usedMockData := false }))
    (fun _ => fallbackResult p)

/-- Failure classification of a fetch outcome, per the spec's transport
taxonomy: network failure, non-success status (this includes the proxy's
uniform 500 `{error}` shape), or malformed JSON. -/
def isTransportFailure (o : FetchOutcome) : Bool :=
  match o with
  | .networkError => true
  | .response ok _ body => ok = false || body.isNone

/-!  The Presentation Layer state updated by `fetchCryptoData` (page.js). -/

/-- The React state touched by `fetchCryptoData`: `data`, `loading`,
`error`, `useMockData`, `isRefreshing`, `fetchStatus`. -/
structure UIState where
  data : List ProcessedCoin
  loading : Bool
  error : Option String
  useMockData : Bool
  isRefreshing : Bool
  fetchStatus : String
deriving DecidableEq, Repr

/-- The component's initial state (`useState` initializers in page.js). -/
def initialUIState : UIState :=
  { data := [], loading := true, error := none, useMockData := false,
    isRefreshing := false, fetchStatus := "idle" }

/-- The error message set by `fetchCryptoData`'s catch branch. -/
def loadFailMsg : String :=
  "Failed to load data. Check your API token in .env.local."

/-- The synchronous head of `fetchCryptoData`, run when a fetch is
initiated: set `loading` (or `isRefreshing` on a forced refresh), clear
`error`, mark the status as fetching. -/
def fetchStart (forceRefresh : Bool) (s : UIState) : UIState :=
  let s1 := if forceRefresh then { s with isRefreshing := true }
            else { s with loading := true }
  { s1 with error := none, fetchStatus := "fetching" }

/-- The continuation of `fetchCryptoData` run when its awaited
`getSentimentData` call resolves with `result`: flag mock data, then run
the `processedData` map inside the `try` — `result.data.map` throws when
`result.data` is absent, in which case the catch branch records
`loadFailMsg` and leaves `data` untouched.  The resolution is applied to
whatever state is current; no staleness or generation check occurs. -/
def fetchResolve (result : SentimentResult) (s : UIState) : UIState :=
  let s1 := if result.usedMockData then { s with useMockData := true } else s
  match result.data with
  | some coins =>
      { s1 with data := processList coins, loading := false,
                isRefreshing := false, fetchStatus := "complete" }
  | none =>
      { s1 with error := some loadFailMsg, loading := false,
                isRefreshing := false, fetchStatus := "error" }

/-- An observable event of the fetch lifecycle: a fetch being initiated,
or an in-flight fetch resolving (with the parameters it was initiated
with and the transport outcome it saw). -/
inductive UIEvent where
  | start (forceRefresh : Bool)
  | resolve (p : Params) (o : FetchOutcome)
deriving DecidableEq, Repr

/-- Apply one event to the UI state. -/
def applyEvent (s : UIState) (e : UIEvent) : UIState :=
  match e with
  | .start fr => fetchStart fr s
  | .resolve p o => fetchResolve (getSentimentData p o) s

/-- Run an interleaving of fetch initiations and resolutions. -/
def runEvents (s : UIState) (es : List UIEvent) : UIState :=
  es.foldl applyEvent s

/-!  A small heap semantics for the fallback branch, to state the
no-mutation claim about `mockData.data`.  JS arrays are references into a
heap; `[...xs]` and `slice` allocate fresh arrays, `.reverse()` mutates
its receiver in place.  The module-level `mockData.data` array lives at
reference 0 of the initial heap. -/

/-- A heap of JS arrays of raw records, addressed by allocation index. -/
abbrev Heap : Type := List (List RawCoin)

/-- Read the array at reference `r` (a dangling reference reads as the
empty array; none occurs in the modelled runs). -/
def heapGet : Heap → ℕ → List RawCoin
  | [], _ => []
  | a :: _, 0 => a
  | _ :: t, n + 1 => heapGet t n

/-- Overwrite the array at reference `r`. -/
def heapSet : Heap → ℕ → List RawCoin → Heap
  | [], _, _ => []
  | _ :: t, 0, a => a :: t
  | b :: t, n + 1, a => b :: heapSet t n a

/-- Allocate a fresh array, returning the new heap and its reference. -/
def heapAlloc (h : Heap) (a : List RawCoin) : Heap × ℕ :=
  (h ++ [a], h.length)

/-- JS `arr.reverse()`: reverse the array at `r` in place. -/
def heapReverseAt (h : Heap) (r : ℕ) : Heap :=
  heapSet h r (heapGet h r).reverse

/-- The fallback branch of `getSentimentData` under the heap semantics.
`result.data` initially aliases `mockData.data` (the object spread is
shallow), i.e. reference `mockRef`.  `[...result.data]` allocates a copy,
`.reverse()` then mutates that copy; `slice(0, limit)` allocates a fresh
array.  Returns the heap after the invocation and the reference held by
the returned envelope's `data`. -/
def fallbackHeap (h : Heap) (mockRef : ℕ) (p : Params) : Heap × ℕ :=
  let (h1, r1) :=
    if p.desc = some true then
      let (ha, ra) := heapAlloc h (heapGet h mockRef)
      (heapReverseAt ha ra, ra)
    else (h, mockRef)
  match p.limit with
  | some n =>
      if n ≠ 0 then heapAlloc h1 (jsSlice0 (heapGet h1 r1) n)
      else (h1, r1)
  | none => (h1, r1)

/-- A sequence of fallback invocations, threading the heap; the returned
data references are dropped (the caller replaces its envelope wholesale). -/
def fallbackHeapRuns (h : Heap) (mockRef : ℕ) (ps : List Params) : Heap :=
  ps.foldl (fun hh p => (fallbackHeap hh mockRef p).1) h

/-!  The `/api/sentiment` proxy route handler `GET`
(app/api/sentiment/route.js). -/

/-- Outcome of the upstream LunarCrush fetch as seen by the route
handler: rejection, or a response with `ok`, status, and a body that
`response.json()` either parses or fails to parse. -/
inductive UpstreamOutcome where
  | networkError
  | response (ok : Bool) (status : ℕ) (body : Option SentimentBody)
deriving DecidableEq, Repr

/-- The HTTP response produced by the route handler: a status plus either
an `{ error: string }` JSON body or the forwarded upstream JSON body. -/
structure ProxyResponse where
  status : ℕ
  errorMsg : Option String
  body : Option SentimentBody
deriving DecidableEq, Repr

/-- The message of the error thrown when the credential is missing. -/
def tokenMissingThrownMsg : String :=
  "API_TOKEN is missing. Please set LUNARCRUSH_API_TOKEN in .env.local"

/-- The distinct message returned to the client for a missing
credential. -/
def missingKeyMsg : String :=
  "Missing API key. Please set LUNARCRUSH_API_TOKEN in .env.local"

/-- The generic failure message returned to the client. -/
def genericFailMsg : String := "Failed to fetch data"

/-- The upstream base URL (app/constants/index.js `BASE_URL`). -/
def baseUrl : String := "https://lunarcrush.com/api4/public/"

/-- The default limit (app/constants/index.js `DEFAULT_LIMIT`). -/
def defaultLimit : Int := 30

/-- `searchParams.get('desc') === '1' ? 1 : 0`. -/
def parseDesc (descParam : Option String) : ℕ :=
  if descParam = some "1" then 1 else 0

/-- JS `parseInt` restricted to the canonical integer strings this route
actually receives (the UI sends decimal integers); any other string is
NaN, modelled `none`. -/
def jsParseInt (s : String) : Option Int :=
  s.toInt?

/-- Render the route's `limit` value into the URL: a NaN prints as
`"NaN"`. -/
def limitToString (l : Option Int) : String :=
  match l with
  | some n => toString n
  | none => "NaN"

/-- `searchParams.get('limit') ? parseInt(searchParams.get('limit')) :
DEFAULT_LIMIT` — an absent or empty parameter is falsy and yields the
default. -/
def parseLimit (limitParam : Option String) : Option Int :=
  if jsTruthyStr limitParam then jsParseInt (limitParam.getD "")
  else some defaultLimit

/-- The upstream URL
`` `${BASE_URL}coins/list/v1?sort=sentiment&limit=${limit}${desc ? '&desc=1' : ''}` ``. -/
def buildApiUrl (desc : ℕ) (limit : Option Int) : String :=
  baseUrl ++ "coins/list/v1?sort=sentiment&limit=" ++ limitToString limit ++
    (if desc ≠ 0 then "&desc=1" else "")

/-- The `try` block of the route handler, together with a flag recording
whether execution reached the upstream `fetch` call.  A falsy
(`undefined` or empty) `API_TOKEN` throws before the fetch; a non-ok
upstream response throws `` `API Error: ${status}` ``; a body that fails
to parse throws; otherwise the upstream JSON is returned. -/
def routeTry (token : Option String) (descParam limitParam : Option String)
    (u : UpstreamOutcome) : Except String SentimentBody × Bool :=
  if jsTruthyStr token = false then (.error tokenMissingThrownMsg, false)
  else
    let desc := parseDesc descParam
    let limit := parseLimit limitParam
    let _apiUrl := buildApiUrl desc limit
    match u with
    | .networkError => (.error "TypeError: fetch failed", true)
    | .response ok status body =>
      if ok = false then (.error ("API Error: " ++ toString status), true)
      else
        match body with
        | some b => (.ok b, true)
        | none => (.error "SyntaxError: Unexpected end of JSON input", true)

/-- The `GET` route handler: on success forward the upstream JSON with
status 200; on any caught error respond with status 500 and a JSON body
`{ error: message }`, where the message is the distinct missing-key text
when the thrown message includes `'API_TOKEN is missing'` and the generic
text otherwise.  The second component records whether the upstream call
was attempted. -/
def routeGET (token : Option String) (descParam limitParam : Option String)
    (u : UpstreamOutcome) : ProxyResponse × Bool :=
  let (r, called) := routeTry token descParam limitParam u
  (jsTryCatch
    (r.map (fun b => ({ status := 200, errorMsg := none, body := some b } : ProxyResponse)))
    (fun msg =>
      { status := 500
        errorMsg := some (if jsIncludes msg "API_TOKEN is missing" then missingKeyMsg
                          else genericFailMsg)
        body := none }),
   called)

/-- Failure classification for the upstream outcome: rejection, non-ok
status, or malformed JSON. -/
def isUpstreamFailure (u : UpstreamOutcome) : Bool :=
  match u with
  | .networkError => true
  | .response ok _ body => ok = false || body.isNone

/-!  Specification-side definitions (followed verbatim from the spec's
words, to be compared with the embedded code) and shared lemmas. -/

/-- The tail of the spec's rank chain: `alt_rank` if present and truthy,
else positional index + 1. -/
def specAltRank (c : RawCoin) (i : ℕ) : ℚ :=
  match c.alt_rank with
  | some w => if w ≠ 0 then w else (i : ℚ) + 1
  | none => (i : ℚ) + 1

/-- The spec's rank invariant, written from its words: `rank =
market_cap_rank` if present and truthy, else `alt_rank` if present and
truthy, else positional index + 1. -/
def specRank (c : RawCoin) (i : ℕ) : ℚ :=
  match c.market_cap_rank with
  | some v => if v ≠ 0 then v else specAltRank c i
  | none => specAltRank c i

theorem getSentimentData_of_failure (p : Params) (o : FetchOutcome)
    (h : isTransportFailure o = true) :
    getSentimentData p o = fallbackResult p := by
  cases o with
  | networkError => rfl
  | response ok status body =>
    cases ok with
    | false => rfl
    | true =>
      cases body with
      | some b => simp [isTransportFailure] at h
      | none => rfl

theorem heapGet_heapSet_succ (h : Heap) (n : ℕ) (a : List RawCoin) :
    heapGet (heapSet h (n + 1) a) 0 = heapGet h 0 := by
  cases h <;> rfl

theorem heapSet_length (h : Heap) (n : ℕ) (a : List RawCoin) :
    (heapSet h n a).length = h.length := by
  induction h generalizing n with
  | nil => rfl
  | cons b t ih =>
    cases n with
    | zero => rfl
    | succ m => simp [heapSet, ih]

theorem fallbackHeap_preserves (b : List RawCoin) (t : Heap) (p : Params) :
    heapGet (fallbackHeap (b :: t) 0 p).1 0 = b ∧
      (fallbackHeap (b :: t) 0 p).1 ≠ [] := by
  obtain ⟨pd, pl⟩ := p
  by_cases hd : pd = some true
  · cases pl with
    | none =>
      refine ⟨?_, ?_⟩ <;>
        simp [fallbackHeap, hd, heapAlloc, heapReverseAt, List.length_cons,
          heapSet, heapGet, heapGet_heapSet_succ]
    | some n =>
      by_cases hn : n = 0 <;>
        refine ⟨?_, ?_⟩ <;>
          simp [fallbackHeap, hd, hn, heapAlloc, heapReverseAt,
            List.length_cons, heapSet, heapGet, heapGet_heapSet_succ]
  · cases pl with
    | none => exact ⟨by simp [fallbackHeap, hd, heapGet], by simp [fallbackHeap, hd]⟩
    | some n =>
      by_cases hn : n = 0 <;>
        refine ⟨?_, ?_⟩ <;>
          simp [fallbackHeap, hd, hn, heapAlloc, heapGet]

theorem fallbackHeapRuns_preserves (ps : List Params) :
    ∀ (h : Heap), heapGet h 0 = mockData.data → h ≠ [] →
      heapGet (fallbackHeapRuns h 0 ps) 0 = mockData.data := by
  induction ps with
  | nil => intro h hg _; exact hg
  | cons p ps ih =>
    intro h hg hne
    obtain ⟨b, t, rfl⟩ : ∃ b t, h = b :: t := by
      cases h with
      | nil => exact absurd rfl hne
      | cons b t => exact ⟨b, t, rfl⟩
    have hb : b = mockData.data := hg
    have step := fallbackHeap_preserves b t p
    have : fallbackHeapRuns (b :: t) 0 (p :: ps) =
        fallbackHeapRuns (fallbackHeap (b :: t) 0 p).1 0 ps := rfl
    rw [this]
    exact ih _ (step.1.trans hb) (by simpa using step.2)

/-!  Claim theorems. -/

/-- C1: for every query-parameter input, `getSentimentData` never raises
to its caller — it is a total function into `SentimentResult`, not an
`Except` — and every transport/HTTP failure (network failure, non-success
status, which covers the proxy's uniform 500 `{error}` shape, or
malformed JSON) terminates in the envelope built from the sample dataset
with `usedMockData = true`, never a thrown error visible to the
presentation layer. -/
theorem acquire_never_raises_falls_back (p : Params) (o : FetchOutcome)
    (h : isTransportFailure o = true) :
    getSentimentData p o = fallbackResult p ∧
      (getSentimentData p o).usedMockData = true ∧
      (fallbackResult p).data = some (fallbackData p) := by
  refine ⟨getSentimentData_of_failure p o h, ?_, rfl⟩
  rw [getSentimentData_of_failure p o h]
  rfl

/-- Witness for C1 at a concrete failing outcome: the proxy's uniform
error shape, a 500 response. -/
theorem acquire_never_raises_falls_back_witness :
    getSentimentData { desc := some true, limit := some 3 }
        (.response false 500 none) =
      fallbackResult { desc := some true, limit := some 3 } ∧
    (getSentimentData { desc := some true, limit := some 3 }
        (.response false 500 none)).usedMockData = true ∧
    (fallbackResult { desc := some true, limit := some 3 }).data =
      some (fallbackData { desc := some true, limit := some 3 }) :=
  acquire_never_raises_falls_back _ _ rfl

/-- C2: the normalized rank at positional index `i` of the processed
sequence equals the spec's strict fallback chain (`market_cap_rank` if
present and truthy, else `alt_rank` if present and truthy, else `i + 1`),
computed from the `i`-th raw record alone — independent of every other
record — and the three concrete instances: `market_cap_rank=5,
alt_rank=9` at index 2 gives rank 5; `market_cap_rank=0, alt_rank=9`
gives rank 9 (zero is falsy); both 0/absent gives rank 3. -/
theorem rank_fallback_chain :
    (∀ (l : List RawCoin) (i : ℕ) (h : i < l.length),
        ((processList l).get ⟨i, by rw [processList_length]; exact h⟩).rank =
          specRank (l.get ⟨i, h⟩) i) ∧
    (processCoin { RawCoin.empty with market_cap_rank := some 5, alt_rank := some 9 } 2).rank = 5 ∧
    (processCoin { RawCoin.empty with market_cap_rank := some 0, alt_rank := some 9 } 2).rank = 9 ∧
    (processCoin { RawCoin.empty with market_cap_rank := some 0 } 2).rank = 3 := by
  refine ⟨?_, by norm_num [processCoin, jsOrNum, RawCoin.empty],
    by norm_num [processCoin, jsOrNum, RawCoin.empty],
    by norm_num [processCoin, jsOrNum, RawCoin.empty]⟩
  intro l i h
  rw [processList_get]
  set c := l.get ⟨i, h⟩ with hc
  cases hm : c.market_cap_rank with
  | none =>
    cases ha : c.alt_rank with
    | none => simp [processCoin, jsOrNum, specRank, specAltRank, hm, ha]
    | some w => simp [processCoin, jsOrNum, specRank, specAltRank, hm, ha]
  | some v =>
    cases ha : c.alt_rank with
    | none => simp [processCoin, jsOrNum, specRank, specAltRank, hm, ha]
    | some w => simp [processCoin, jsOrNum, specRank, specAltRank, hm, ha]

/-- Witness for C2's universally quantified part at the singleton list
holding the sample Bitcoin record. -/
theorem rank_fallback_chain_witness :
    ((processList [mockBTC]).get
        ⟨0, by rw [processList_length]; exact Nat.zero_lt_one⟩).rank =
      specRank ([mockBTC].get ⟨0, Nat.zero_lt_one⟩) 0 :=
  rank_fallback_chain.1 [mockBTC] 0 Nat.zero_lt_one

/-- C3: normalization is total over field absence — for each of
`sentiment`, `galaxy_score`, `percent_change_24h`, `percent_change_7d`,
`volume_24h`, `market_cap`, `price`, an absent/null raw field becomes the
number 0 in the processed record, while a present numeric value
(including 0) is preserved unchanged. -/
theorem normalization_totality (c : RawCoin) (i : ℕ) :
    ((c.sentiment = none → (processCoin c i).sentiment = 0) ∧
      ∀ v, c.sentiment = some v → (processCoin c i).sentiment = v) ∧
    ((c.galaxy_score = none → (processCoin c i).galaxy_score = 0) ∧
      ∀ v, c.galaxy_score = some v → (processCoin c i).galaxy_score = v) ∧
    ((c.percent_change_24h = none → (processCoin c i).percent_change_24h = 0) ∧
      ∀ v, c.percent_change_24h = some v → (processCoin c i).percent_change_24h = v) ∧
    ((c.percent_change_7d = none → (processCoin c i).percent_change_7d = 0) ∧
      ∀ v, c.percent_change_7d = some v → (processCoin c i).percent_change_7d = v) ∧
    ((c.volume_24h = none → (processCoin c i).volume_24h = 0) ∧
      ∀ v, c.volume_24h = some v → (processCoin c i).volume_24h = v) ∧
    ((c.market_cap = none → (processCoin c i).market_cap = 0) ∧
      ∀ v, c.market_cap = some v → (processCoin c i).market_cap = v) ∧
    ((c.price = none → (processCoin c i).price = 0) ∧
      ∀ v, c.price = some v → (processCoin c i).price = v) := by
  refine ⟨⟨?_, ?_⟩, ⟨?_, ?_⟩, ⟨?_, ?_⟩, ⟨?_, ?_⟩, ⟨?_, ?_⟩, ⟨?_, ?_⟩, ?_, ?_⟩ <;>
    first
      | (intro h; simp [processCoin, h])
      | (intro v h; simp [processCoin, h])

/-- Witness for C3: an all-absent record gets sentiment 0; the sample
Bitcoin record's present price and a present-zero sentiment are kept. -/
theorem normalization_totality_witness :
    (processCoin RawCoin.empty 0).sentiment = 0 ∧
    (processCoin mockBTC 3).price = 106859.23 ∧
    (processCoin { RawCoin.empty with sentiment := some 0 } 1).sentiment = 0 :=
  ⟨(normalization_totality RawCoin.empty 0).1.1 rfl,
   (normalization_totality mockBTC 3).2.2.2.2.2.2.2 106859.23 rfl,
   (normalization_totality { RawCoin.empty with sentiment := some 0 } 1).1.2 0 rfl⟩

/-- C4: on the fallback path reversal precedes truncation — for any
truthy limit `n` the fallback sequence is the reversed canonical sample
dataset sliced to `n` (an order reversal, not a value sort) — and in
particular, for `sortDescending=true, limit=3` against any failing
gateway outcome, the records applied to the display equal the first 3
elements of the reversed canonical sample dataset, each passed through
normalization. -/
theorem fallback_reversal_precedes_truncation :
    (∀ (n : Int), n ≠ 0 →
        fallbackData { desc := some true, limit := some n } =
          jsSlice0 mockData.data.reverse n) ∧
    fallbackData { desc := some true, limit := some 3 } =
      mockData.data.reverse.take 3 ∧
    (∀ (s : UIState) (o : FetchOutcome), isTransportFailure o = true →
        (applyEvent s (.resolve { desc := some true, limit := some 3 } o)).data =
          processList (mockData.data.reverse.take 3)) := by
  refine ⟨?_, rfl, ?_⟩
  · intro n hn
    simp [fallbackData, fallbackBase, hn]
  · intro s o ho
    simp only [applyEvent, getSentimentData_of_failure _ o ho]
    rfl

/-- Witness for C4 at a network failure against the initial UI state. -/
theorem fallback_reversal_precedes_truncation_witness :
    fallbackData { desc := some true, limit := some 3 } =
      jsSlice0 mockData.data.reverse 3 ∧
    (applyEvent initialUIState
        (.resolve { desc := some true, limit := some 3 } .networkError)).data =
      processList (mockData.data.reverse.take 3) :=
  ⟨fallback_reversal_precedes_truncation.1 3 (by decide),
   fallback_reversal_precedes_truncation.2.2 initialUIState .networkError rfl⟩

/-- C5 counterexample: on HTTP 200 with body `{}` (no `data` field) the
pipeline does NOT produce an envelope with `records=[]` — the
normalization map throws (`result.data.map` on an absent field), the
catch branch records the failure message, and the displayed records are
left untouched (here, still the one previously displayed record). -/
theorem shape_error_counterexample :
    (applyEvent { initialUIState with data := [processCoin mockBTC 0] }
        (.resolve { desc := some false, limit := some 10 }
          (.response true 200 (some { generated := none, data := none })))).data =
      [processCoin mockBTC 0] ∧
    [processCoin mockBTC 0] ≠ ([] : List ProcessedCoin) ∧
    (applyEvent { initialUIState with data := [processCoin mockBTC 0] }
        (.resolve { desc := some false, limit := some 10 }
          (.response true 200 (some { generated := none, data := none })))).error =
      some loadFailMsg :=
  ⟨rfl, by simp, rfl⟩

/-- C5 amended: on HTTP 200 with a body lacking the `data` list field,
`getSentimentData` forwards the body unchanged as a non-synthetic result
(no sample-dataset fallback, `usedMockData = false`), but the
normalization map of `fetchCryptoData` throws; its catch handler sets the
error message and leaves the displayed records and the synthetic flag
unchanged — no empty non-synthetic envelope is produced. -/
theorem shape_error_amended (s : UIState) (p : Params) (g : Option ℕ) (st : ℕ) :
    getSentimentData p (.response true st (some { generated := g, data := none })) =
      { generated := g, data := none, usedMockData := false } ∧
    fetchResolve
        (getSentimentData p (.response true st (some { generated := g, data := none }))) s =
      { s with error := some loadFailMsg, loading := false,
               isRefreshing := false, fetchStatus := "error" } :=
  ⟨rfl, rfl⟩

/-- Witness for C5's amended claim at the initial UI state and a literal
`{}` body. -/
theorem shape_error_amended_witness :
    getSentimentData { desc := some false, limit := some 10 }
        (.response true 200 (some { generated := none, data := none })) =
      { generated := none, data := none, usedMockData := false } ∧
    fetchResolve
        (getSentimentData { desc := some false, limit := some 10 }
          (.response true 200 (some { generated := none, data := none })))
        initialUIState =
      { initialUIState with error := some loadFailMsg, loading := false,
                            isRefreshing := false, fetchStatus := "error" } :=
  shape_error_amended initialUIState { desc := some false, limit := some 10 }
    none 200

/-- C6 counterexample: with `limit = 0` the fallback branch does not pass
the limit to the truncation at all — `if (params.limit)` is falsy at 0 —
so the result is the full 5-record sample dataset, not the empty slice
that truncation to 0 entries would produce. -/
theorem limit_zero_counterexample :
    (fallbackResult { desc := some false, limit := some 0 }).data =
      some mockData.data ∧
    mockData.data.length = 5 ∧
    jsSlice0 mockData.data 0 = [] ∧
    fallbackData { desc := some false, limit := some 0 } ≠
      jsSlice0 mockData.data 0 := by
  refine ⟨rfl, rfl, rfl, ?_⟩
  intro h
  have := congrArg List.length h
  simp [fallbackData, fallbackBase, jsSlice0, mockData] at this

/-- C6 amended: a limit of 0 or negative is passed through unmodified to
the live request's query string; on the fallback path a nonzero
(including negative) limit is passed through to `slice(0, limit)` — a
negative bound counting from the end of the sequence — but a limit of 0
is falsy and skips truncation entirely, yielding the full (possibly
reversed) sample dataset; no clamping or substitution occurs anywhere. -/
theorem limit_passthrough_amended :
    (∀ (d : Option Bool) (n : Int),
        ("limit", toString n) ∈ buildQueryParams { desc := d, limit := some n }) ∧
    (∀ (d : Option Bool) (n : Int), n ≠ 0 →
        fallbackData { desc := d, limit := some n } =
          jsSlice0 (fallbackBase { desc := d, limit := some n }) n) ∧
    (∀ (d : Option Bool),
        fallbackData { desc := d, limit := some 0 } =
          fallbackBase { desc := d, limit := some 0 }) ∧
    fallbackData { desc := some false, limit := some (-2) } =
      [mockETP, mockXMX, mockMETA] := by
  refine ⟨?_, ?_, ?_, rfl⟩
  · intro d n
    cases d <;> simp [buildQueryParams]
  · intro d n hn
    simp [fallbackData, hn]
  · intro d
    simp [fallbackData]

/-- Witness for C6's amended claim: limit 0 appears verbatim in the
query string, and the negative limit −2 is passed through to the
slice. -/
theorem limit_passthrough_amended_witness :
    ("limit", toString (0 : Int)) ∈
      buildQueryParams { desc := some false, limit := some 0 } ∧
    fallbackData { desc := some false, limit := some (-2) } =
      jsSlice0 (fallbackBase { desc := some false, limit := some (-2) }) (-2) :=
  ⟨limit_passthrough_amended.1 (some false) 0,
   limit_passthrough_amended.2.1 (some false) (-2) (by decide)⟩

/-- C7: the fallback parameter emulation never mutates the sample
dataset — under a heap semantics where `[...xs]` and `slice` allocate and
`.reverse()` mutates in place, any sequence of fallback invocations with
any parameters leaves the `mockData.data` array (reference 0) holding the
same elements in the same canonical order — and each invocation's
returned sequence is the pure reversal-then-truncation of the dataset. -/
theorem mock_dataset_never_mutated :
    (∀ (ps : List Params),
        heapGet (fallbackHeapRuns [mockData.data] 0 ps) 0 = mockData.data) ∧
    (∀ (p : Params),
        heapGet (fallbackHeap [mockData.data] 0 p).1
          (fallbackHeap [mockData.data] 0 p).2 = fallbackData p) := by
  constructor
  · intro ps
    exact fallbackHeapRuns_preserves ps [mockData.data] rfl (by simp)
  · intro p
    obtain ⟨pd, pl⟩ := p
    by_cases hd : pd = some true
    · subst hd
      cases pl with
      | none => rfl
      | some n =>
        by_cases hn : n = 0
        · subst hn; rfl
        · simp [fallbackHeap, fallbackData, fallbackBase, hn,
            heapAlloc, heapReverseAt]
          rfl
    · cases pl with
      | none => simp [fallbackHeap, fallbackData, fallbackBase, hd, heapGet]
      | some n =>
        by_cases hn : n = 0
        · subst hn
          simp [fallbackHeap, fallbackData, fallbackBase, hd, heapGet]
        · simp [fallbackHeap, fallbackData, fallbackBase, hd, hn,
            heapAlloc, heapGet]

/-- Witness for C7 at a two-invocation run followed by a descending
truncated single invocation. -/
theorem mock_dataset_never_mutated_witness :
    heapGet
        (fallbackHeapRuns [mockData.data] 0
          [{ desc := some true, limit := some 3 },
           { desc := some false, limit := some 0 }]) 0 = mockData.data ∧
    heapGet (fallbackHeap [mockData.data] 0 { desc := some true, limit := some 3 }).1
        (fallbackHeap [mockData.data] 0 { desc := some true, limit := some 3 }).2 =
      fallbackData { desc := some true, limit := some 3 } :=
  ⟨mock_dataset_never_mutated.1
     [{ desc := some true, limit := some 3 }, { desc := some false, limit := some 0 }],
   mock_dataset_never_mutated.2 { desc := some true, limit := some 3 }⟩

/-- C8: the proxy route's GET handler answers every failure with status
500 and a JSON body `{ error: string }`; a missing (falsy) credential is
detected before the upstream call is attempted (`fetch` never reached)
and reported with the distinct missing-key message, different from the
generic failure message used for upstream failures. -/
theorem proxy_error_contract :
    (∀ (tok dp lp : Option String) (u : UpstreamOutcome),
        jsTruthyStr tok = false →
        routeGET tok dp lp u =
          ({ status := 500, errorMsg := some missingKeyMsg, body := none }, false)) ∧
    missingKeyMsg ≠ genericFailMsg ∧
    (∀ (tok dp lp : Option String) (u : UpstreamOutcome),
        isUpstreamFailure u = true →
        (routeGET tok dp lp u).1.status = 500 ∧
          (routeGET tok dp lp u).1.errorMsg.isSome = true) ∧
    (∀ (tok dp lp : Option String), jsTruthyStr tok = true →
        (routeGET tok dp lp .networkError).1.errorMsg = some genericFailMsg ∧
        (routeGET tok dp lp (.response false 500 none)).1.errorMsg = some genericFailMsg ∧
        (routeGET tok dp lp (.response true 200 none)).1.errorMsg = some genericFailMsg) := by
  refine ⟨?_, by decide, ?_, ?_⟩
  · intro tok dp lp u h
    simp [routeGET, routeTry, jsTryCatch, Except.map, h]
    decide
  · intro tok dp lp u hu
    by_cases h : jsTruthyStr tok = true
    · cases u with
      | networkError => simp [routeGET, routeTry, jsTryCatch, Except.map, h]
      | response ok status body =>
        cases ok with
        | false => simp [routeGET, routeTry, jsTryCatch, Except.map, h]
        | true =>
          cases body with
          | some b => simp [isUpstreamFailure] at hu
          | none => simp [routeGET, routeTry, jsTryCatch, Except.map, h]
    · have h' : jsTruthyStr tok = false := by
        cases hjs : jsTruthyStr tok with
        | false => rfl
        | true => exact absurd hjs h
      simp [routeGET, routeTry, jsTryCatch, Except.map, h']
  · intro tok dp lp h
    refine ⟨?_, ?_, ?_⟩ <;>
      · simp [routeGET, routeTry, jsTryCatch, Except.map, h]
        decide

/-- Witness for C8: a missing credential with a healthy upstream still
gives the distinct 500, without calling upstream; a present credential
with a 500 upstream gives the generic 500. -/
theorem proxy_error_contract_witness :
    routeGET none (some "1") (some "10")
        (.response true 200 (some { generated := none, data := some [] })) =
      ({ status := 500, errorMsg := some missingKeyMsg, body := none }, false) ∧
    (routeGET (some "token") none none (.response false 500 none)).1.status = 500 ∧
    (routeGET (some "token") none none (.response false 500 none)).1.errorMsg =
      some genericFailMsg :=
  ⟨proxy_error_contract.1 none (some "1") (some "10")
     (.response true 200 (some { generated := none, data := some [] })) rfl,
   (proxy_error_contract.2.2.1 (some "token") none none
     (.response false 500 none) rfl).1,
   (proxy_error_contract.2.2.2 (some "token") none none rfl).2.1⟩

/-- Raw record resolved by the earlier-initiated fetch in the staleness
scenario. -/
def staleCoinA : RawCoin := { RawCoin.empty with symbol := some "A" }

/-- Second raw record of the later-initiated fetch's body. -/
def staleCoinB : RawCoin := { RawCoin.empty with symbol := some "B" }

/-- Body resolved by the earlier-initiated fetch A (`limit=10`). -/
def staleBodyA : SentimentBody := { generated := none, data := some [staleCoinA] }

/-- Body resolved by the later-initiated fetch B (`limit=20`). -/
def staleBodyB : SentimentBody :=
  { generated := none, data := some [staleCoinA, staleCoinB] }

/-- C9 counterexample: initiate fetch A (`limit=10`), then fetch B
(`limit=20`); B resolves first, then the stale A resolves.  The displayed
state afterwards holds A's processed records, not B's — the stale
in-flight response is applied, not discarded (no staleness check exists
in `fetchCryptoData`). -/
theorem stale_fetch_counterexample :
    runEvents initialUIState
        [.start false, .start false,
         .resolve { desc := some false, limit := some 20 }
           (.response true 200 (some staleBodyB)),
         .resolve { desc := some false, limit := some 10 }
           (.response true 200 (some staleBodyA))] =
      { initialUIState with data := processList [staleCoinA], loading := false,
                            fetchStatus := "complete" } ∧
    processList [staleCoinA] ≠ processList [staleCoinA, staleCoinB] := by
  refine ⟨rfl, ?_⟩
  intro h
  have := congrArg List.length h
  simp [processList_length] at this

/-- C9 amended: the displayed state reflects the most recently *resolved*
fetch, not the most recently initiated one — each resolution applies its
result unconditionally, so whenever the fetch resolving last yields a
record list, that list is what is displayed, regardless of initiation
order. -/
theorem stale_fetch_amended (s : UIState) (p1 p2 : Params)
    (o1 o2 : FetchOutcome) (coins : List RawCoin)
    (h : (getSentimentData p2 o2).data = some coins) :
    (runEvents s
        [.start false, .start false, .resolve p1 o1, .resolve p2 o2]).data =
      processList coins := by
  simp [runEvents, applyEvent, fetchResolve, h]

/-- Witness for C9's amended claim: two failing fetches; the second
resolution's (fallback) records are the ones displayed. -/
theorem stale_fetch_amended_witness :
    (runEvents initialUIState
        [.start false, .start false,
         .resolve { desc := none, limit := none } .networkError,
         .resolve { desc := some true, limit := some 2 } .networkError]).data =
      processList (fallbackData { desc := some true, limit := some 2 }) :=
  stale_fetch_amended initialUIState { desc := none, limit := none }
    { desc := some true, limit := some 2 } .networkError .networkError
    (fallbackData { desc := some true, limit := some 2 }) rfl

/-- C10: the proxy treats `desc` as descending only when it is exactly
the string `"1"`: every other value (present or absent) yields the
ascending upstream URL with the `&desc=1` flag omitted, and a non-`"1"`
`desc` never causes an error — a successful upstream response is still
forwarded with status 200. -/
theorem desc_strictly_string_one :
    (∀ (v : Option String), v ≠ some "1" → parseDesc v = 0) ∧
    parseDesc (some "1") = 1 ∧
    (∀ (l : Option Int), buildApiUrl 0 l =
        baseUrl ++ "coins/list/v1?sort=sentiment&limit=" ++ limitToString l) ∧
    (∀ (l : Option Int), buildApiUrl 1 l = buildApiUrl 0 l ++ "&desc=1") ∧
    (∀ (tok v lp : Option String) (st : ℕ) (b : SentimentBody),
        jsTruthyStr tok = true →
        routeGET tok v lp (.response true st (some b)) =
          ({ status := 200, errorMsg := none, body := some b }, true)) := by
  refine ⟨?_, rfl, ?_, ?_, ?_⟩
  · intro v h
    simp [parseDesc, h]
  · intro l
    simp [buildApiUrl]
  · intro l
    simp [buildApiUrl]
  · intro tok v lp st b h
    simp [routeGET, routeTry, jsTryCatch, Except.map, h]

/-- Witness for C10 at the value `"true"`, which is not `"1"` and so
degrades silently to ascending with a 200 success. -/
theorem desc_strictly_string_one_witness :
    parseDesc (some "true") = 0 ∧
    routeGET (some "token") (some "true") (some "10")
        (.response true 200 (some { generated := none, data := some [] })) =
      ({ status := 200, errorMsg := none,
         body := some { generated := none, data := some [] } }, true) :=
  ⟨desc_strictly_string_one.1 (some "true") (by decide),
   desc_strictly_string_one.2.2.2.2 (some "token") (some "true") (some "10") 200
     { generated := none, data := some [] } rfl⟩

end LunarCrush
